import Mathlib

/-!
Shallow embedding of the Raydium CPMM swap engine of
`src/lib/raydiumCpmm.ts` (mini-trading-terminal).

Modelling conventions:
* A Solana `PublicKey` is modelled by the natural number that `bn.js`
  stores for it: `new PublicKey(buffer)` reads the buffer big-endian
  (and only rejects values needing more than 32 bytes), and
  `PublicKey.toBuffer` re-emits 32 big-endian bytes.  Key equality
  (`PublicKey.equals`, `toBase58` comparison) is equality of that value.
* A `Buffer` is a `List Nat` of byte values; `buffer.subarray` clamps
  out-of-range indices exactly as Node does, and `buffer[i]` past the
  end is JavaScript `undefined`, modelled as `Option.none`.
* `BN` values are arbitrary-precision, modelled as `Nat` (all values the
  engine handles are non-negative); `BN.div` on naturals is truncating
  division, which is `Nat.div`.
* JavaScript calls that throw are modelled as `Option`-returning
  functions (`none` = throw): `Buffer.writeBigUInt64LE` throws outside
  `[0, 2^64)`, and `BN.toNumber` throws for values of `2^53` or more.
-/

set_option maxRecDepth 16000

namespace RaydiumCpmm

/-- Little-endian (base 256) value of a byte list, as `new BN(buf, "le")`. -/
def leVal : List Nat → Nat
  | [] => 0
  | b :: bs => b + 256 * leVal bs

/-- Fixed-width little-endian byte encoding of a natural number. -/
def leBytes : Nat → Nat → List Nat
  | 0, _ => []
  | w + 1, v => v % 256 :: leBytes w (v / 256)

/-- Big-endian value of a byte list, as `new BN(buf)` (bn.js default),
which is what `new PublicKey(buffer)` stores. -/
def beVal (l : List Nat) : Nat := leVal l.reverse

/-- Fixed-width big-endian byte encoding (`PublicKey.toBuffer`). -/
def beBytes (w v : Nat) : List Nat := (leBytes w v).reverse

/-- Token account rent exemption, source line 24. -/
def TOKEN_ACCOUNT_RENT : Nat := 2039280

/-- Value of the base58 key `CPMMoo8L3F4NbTegBCKVNunggL7H1ZpdTHKxQB5qKP1C`. -/
def RAYDIUM_CPMM_PROGRAM_ID : Nat :=
  76515703900233190660591128275926181994727486580522254552177469512830257523827

/-- Value of the base58 key `GpMZbSM2GgvTKHJirzeGfMFoaZ8UR2X7F4v8vHTvxFbL`. -/
def RAYDIUM_CPMM_AUTHORITY : Nat :=
  106295023720017726563151140856041834598523782454110109779674876033902142462567

/-- Value of the base58 key `TokenkegQfeZyiNwAJbNbGKPFXCWuBvf9Ss623VQ5DA` (SPL token program). -/
def TOKEN_PROGRAM_ID : Nat :=
  3106054211088883198575105191760876350940303353676611666299516346430146937001

/-- Value of the base58 key `So11111111111111111111111111111111111111112` (wrapped SOL mint). -/
def NATIVE_MINT : Nat :=
  2988679396378646993494765771507681406623014513651778753134412041978399162369

/-- swap_base_input instruction discriminator, source lines 37-39. -/
def SWAP_BASE_INPUT_DISCRIMINATOR : List Nat := [143, 190, 90, 218, 196, 30, 51, 222]

namespace POOL_STATE_LAYOUT

def AMM_CONFIG : Nat := 8

def POOL_CREATOR : Nat := 40

def TOKEN_0_VAULT : Nat := 72

def TOKEN_1_VAULT : Nat := 104

def LP_MINT : Nat := 136

def TOKEN_0_MINT : Nat := 168

def TOKEN_1_MINT : Nat := 200

def TOKEN_0_PROGRAM : Nat := 232

def TOKEN_1_PROGRAM : Nat := 264

def OBSERVATION_KEY : Nat := 296

def AUTH_BUMP : Nat := 328

def STATUS : Nat := 329

def LP_MINT_DECIMALS : Nat := 330

def MINT_0_DECIMALS : Nat := 331

def MINT_1_DECIMALS : Nat := 332

def LP_SUPPLY : Nat := 333

def PROTOCOL_FEES_TOKEN_0 : Nat := 341

def PROTOCOL_FEES_TOKEN_1 : Nat := 349

def FUND_FEES_TOKEN_0 : Nat := 357

def FUND_FEES_TOKEN_1 : Nat := 365

def OPEN_TIME : Nat := 373

end POOL_STATE_LAYOUT

structure PoolState where
  address : Nat
  ammConfig : Nat
  poolCreator : Nat
  token0Vault : Nat
  token1Vault : Nat
  lpMint : Nat
  token0Mint : Nat
  token1Mint : Nat
  token0Program : Nat
  token1Program : Nat
  observationKey : Nat
  authBump : Option Nat
  status : Option Nat
  lpMintDecimals : Option Nat
  mint0Decimals : Option Nat
  mint1Decimals : Option Nat
  lpSupply : Nat
  protocolFeesToken0 : Nat
  protocolFeesToken1 : Nat
  fundFeesToken0 : Nat
  fundFeesToken1 : Nat
  openTime : Nat
deriving DecidableEq

/-- Node `buffer.subarray(start, stop)`: clamps both indices to the
buffer length, so a short buffer yields a short (possibly empty) slice. -/
def subarray (data : List Nat) (start stop : Nat) : List Nat :=
  (data.drop start).take (stop - start)

/-- A 32-byte slice read as `new PublicKey(data.subarray(off, off + 32))`.
The PublicKey constructor only rejects values whose byte length exceeds 32,
which a 32-byte-or-shorter slice can never produce, so this never throws. -/
def readKey (data : List Nat) (off : Nat) : Nat :=
  beVal (subarray data off (off + 32))

/-- An 8-byte slice read as `new BN(data.subarray(off, off + 8), "le")`
(an empty or short slice reads as the value of the available bytes). -/
def readU64 (data : List Nat) (off : Nat) : Nat :=
  leVal (subarray data off (off + 8))

/-- parsePoolState, source lines 108-186.  There is no length check: single
byte reads past the end are JavaScript `undefined` (`none` here) and slice
reads clamp, so every buffer produces a `PoolState`. -/
def parsePoolState (address : Nat) (data : List Nat) : PoolState :=
  { address := address
    ammConfig := readKey data POOL_STATE_LAYOUT.AMM_CONFIG
    poolCreator := readKey data POOL_STATE_LAYOUT.POOL_CREATOR
    token0Vault := readKey data POOL_STATE_LAYOUT.TOKEN_0_VAULT
    token1Vault := readKey data POOL_STATE_LAYOUT.TOKEN_1_VAULT
    lpMint := readKey data POOL_STATE_LAYOUT.LP_MINT
    token0Mint := readKey data POOL_STATE_LAYOUT.TOKEN_0_MINT
    token1Mint := readKey data POOL_STATE_LAYOUT.TOKEN_1_MINT
    token0Program := readKey data POOL_STATE_LAYOUT.TOKEN_0_PROGRAM
    token1Program := readKey data POOL_STATE_LAYOUT.TOKEN_1_PROGRAM
    observationKey := readKey data POOL_STATE_LAYOUT.OBSERVATION_KEY
    authBump := data[POOL_STATE_LAYOUT.AUTH_BUMP]?
    status := data[POOL_STATE_LAYOUT.STATUS]?
    lpMintDecimals := data[POOL_STATE_LAYOUT.LP_MINT_DECIMALS]?
    mint0Decimals := data[POOL_STATE_LAYOUT.MINT_0_DECIMALS]?
    mint1Decimals := data[POOL_STATE_LAYOUT.MINT_1_DECIMALS]?
    lpSupply := readU64 data POOL_STATE_LAYOUT.LP_SUPPLY
    protocolFeesToken0 := readU64 data POOL_STATE_LAYOUT.PROTOCOL_FEES_TOKEN_0
    protocolFeesToken1 := readU64 data POOL_STATE_LAYOUT.PROTOCOL_FEES_TOKEN_1
    fundFeesToken0 := readU64 data POOL_STATE_LAYOUT.FUND_FEES_TOKEN_0
    fundFeesToken1 := readU64 data POOL_STATE_LAYOUT.FUND_FEES_TOKEN_1
    openTime := readU64 data POOL_STATE_LAYOUT.OPEN_TIME }

/-- Encoding of a single-byte field (an absent field re-encodes as 0). -/
def byteField (b : Option Nat) : List Nat := [b.getD 0]

/-- Re-encoding of the decoded fields at their layout offsets: the byte
region from offset 8 to offset 381 that `parsePoolState` actually reads
(ten 32-byte keys, five single bytes, six 8-byte little-endian integers). -/
def encodePoolFields (ps : PoolState) : List Nat :=
  beBytes 32 ps.ammConfig ++ beBytes 32 ps.poolCreator ++
  beBytes 32 ps.token0Vault ++ beBytes 32 ps.token1Vault ++
  beBytes 32 ps.lpMint ++ beBytes 32 ps.token0Mint ++
  beBytes 32 ps.token1Mint ++ beBytes 32 ps.token0Program ++
  beBytes 32 ps.token1Program ++ beBytes 32 ps.observationKey ++
  byteField ps.authBump ++ byteField ps.status ++ byteField ps.lpMintDecimals ++
  byteField ps.mint0Decimals ++ byteField ps.mint1Decimals ++
  leBytes 8 ps.lpSupply ++ leBytes 8 ps.protocolFeesToken0 ++
  leBytes 8 ps.protocolFeesToken1 ++ leBytes 8 ps.fundFeesToken0 ++
  leBytes 8 ps.fundFeesToken1 ++ leBytes 8 ps.openTime

/-- Full 637-byte re-encoding of a decoded pool state at the same fixed
offsets: the decoded fields cover bytes 8 to 380 only, so the 8 leading
bytes (account discriminator) and 256 trailing bytes are not represented
in a `PoolState` and re-encode as zero. -/
def encodePoolState (ps : PoolState) : List Nat :=
  List.replicate 8 0 ++ encodePoolFields ps ++ List.replicate 256 0

structure VaultBalances where
  vault0Balance : Nat
  vault1Balance : Nat
deriving DecidableEq

structure SwapQuote where
  amountIn : Nat
  amountOut : Nat
  minimumAmountOut : Nat
  inputMint : Nat
  outputMint : Nat
deriving DecidableEq

/-- Fee deduction of calculateSwapOutput line 353:
`amountIn.mul(new BN(10000 - feeBps)).div(new BN(10000))`. -/
def amountInAfterFee (amountIn feeBps : Nat) : Nat :=
  amountIn * (10000 - feeBps) / 10000

/-- calculateSwapOutput, source lines 338-379, restricted to the returned
`amountOut`.  `none` models the throw when `inputReserve` is zero: the
spot-price computation of line 366 divides by `inputReserve` (and with a
zero after-fee amount already line 361 divides by zero).  The other return
field, `priceImpact`, is a display-only floating-point percentage and is
not part of the model. -/
def calculateSwapOutput (amountIn inputReserve outputReserve feeBps : Nat) : Option Nat :=
  if inputReserve = 0 then none
  else
    let afterFee := amountInAfterFee amountIn feeBps
    some (afterFee * outputReserve / (inputReserve + afterFee))

/-- Low-liquidity widening of getSwapQuote line 425-426:
1500 bps when the input reserve is under 100,000,000 atomic units
(0.1 SOL), 500 bps otherwise. -/
def conservativeSlippage (inputReserve : Nat) : Nat :=
  if inputReserve < 100000000 then 1500 else 500

/-- Effective slippage of getSwapQuote line 427:
`Math.max(slippageBps, conservativeSlippage)`. -/
def effectiveSlippageBps (slippageBps inputReserve : Nat) : Nat :=
  max slippageBps (conservativeSlippage inputReserve)

/-- The pricing-and-slippage pipeline of getSwapQuote (lines 416-438) once
the reserves have been selected, with the fee estimate as an explicit
parameter; getSwapQuote itself always calls calculateSwapOutput with the
default `feeBps = 100`.  Returns `(amountOut, minimumAmountOut)`. -/
def quoteCore (amountIn inputReserve outputReserve feeBps slippageBps : Nat) :
    Option (Nat × Nat) :=
  (calculateSwapOutput amountIn inputReserve outputReserve feeBps).map fun amountOut =>
    (amountOut, amountOut * (10000 - effectiveSlippageBps slippageBps inputReserve) / 10000)

/-- getSwapQuote, source lines 384-448, with the vault balances (fetched
from the network in the source) passed in.  Swap direction, lines 403-411:
input side is vault 0 exactly when `inputMint` equals `token0Mint`; any
other input mint — the pool's token 1 mint or a mint foreign to the pool —
takes the other branch, with no membership validation. -/
def getSwapQuote (poolState : PoolState) (vaultBalances : VaultBalances)
    (inputMint outputMint amountIn slippageBps : Nat) : Option SwapQuote :=
  let inputReserve :=
    if inputMint = poolState.token0Mint then vaultBalances.vault0Balance
    else vaultBalances.vault1Balance
  let outputReserve :=
    if inputMint = poolState.token0Mint then vaultBalances.vault1Balance
    else vaultBalances.vault0Balance
  (quoteCore amountIn inputReserve outputReserve 100 slippageBps).map fun q =>
    { amountIn := amountIn
      amountOut := q.1
      minimumAmountOut := q.2
      inputMint := inputMint
      outputMint := outputMint }

structure AccountMeta where
  pubkey : Nat
  isSigner : Bool
  isWritable : Bool
deriving DecidableEq

structure Instruction where
  programId : Nat
  keys : List AccountMeta
  data : List Nat
deriving DecidableEq

/-- buildSwapInstruction, source lines 474-534.  `none` models the
RangeError that `data.writeBigUInt64LE` throws for a value outside
`[0, 2^64)`; otherwise the 24-byte payload is the discriminator followed
by the two amounts as 8-byte little-endian integers, and the key list is
the fixed 13-entry account order with the vaults resolved by whether the
input mint is the pool's token 0 mint (lines 491-494). -/
def buildSwapInstruction (poolState : PoolState)
    (payer inputTokenAccount outputTokenAccount inputMint outputMint
     inputTokenProgram outputTokenProgram : Nat)
    (amountIn minimumAmountOut : Nat) : Option Instruction :=
  let inputVault :=
    if inputMint = poolState.token0Mint then poolState.token0Vault
    else poolState.token1Vault
  let outputVault :=
    if inputMint = poolState.token0Mint then poolState.token1Vault
    else poolState.token0Vault
  if amountIn < 2 ^ 64 ∧ minimumAmountOut < 2 ^ 64 then
    some
      { programId := RAYDIUM_CPMM_PROGRAM_ID
        keys :=
          [{ pubkey := payer, isSigner := true, isWritable := true },
           { pubkey := RAYDIUM_CPMM_AUTHORITY, isSigner := false, isWritable := false },
           { pubkey := poolState.ammConfig, isSigner := false, isWritable := false },
           { pubkey := poolState.address, isSigner := false, isWritable := true },
           { pubkey := inputTokenAccount, isSigner := false, isWritable := true },
           { pubkey := outputTokenAccount, isSigner := false, isWritable := true },
           { pubkey := inputVault, isSigner := false, isWritable := true },
           { pubkey := outputVault, isSigner := false, isWritable := true },
           { pubkey := inputTokenProgram, isSigner := false, isWritable := false },
           { pubkey := outputTokenProgram, isSigner := false, isWritable := false },
           { pubkey := inputMint, isSigner := false, isWritable := false },
           { pubkey := outputMint, isSigner := false, isWritable := false },
           { pubkey := poolState.observationKey, isSigner := false, isWritable := true }]
        data := SWAP_BASE_INPUT_DISCRIMINATOR ++
          leBytes 8 amountIn ++ leBytes 8 minimumAmountOut }
  else none

/-- BN.toNumber: bn.js asserts that the value fits in 53 bits and throws
otherwise, so it succeeds exactly on values below `2^53`. -/
def bnToNumber (v : Nat) : Option Nat :=
  if v < 2 ^ 53 then some v else none

structure TempWsolAccount where
  wsolAccount : Nat
  lamports : Nat
deriving DecidableEq

/-- createTempWsolAccount, source lines 540-592, with the seed-derived
account address passed in (the source derives it from a freshly generated
random keypair, an injected source of randomness).  Line 561 computes the
funding lamports as `TOKEN_ACCOUNT_RENT + amountLamports.toNumber()`, and
`BN.toNumber` throws for amounts of `2^53` and above — hence the `Option`. -/
def createTempWsolAccount (wsolAccount : Nat) (amountLamports : Nat) :
    Option TempWsolAccount :=
  (bnToNumber amountLamports).map fun n =>
    { wsolAccount := wsolAccount, lamports := TOKEN_ACCOUNT_RENT + n }

/-- The instruction kinds that createSwapTransaction assembles. -/
inductive Ix where
  | setComputeUnitLimit : Nat → Ix
  | setComputeUnitPrice : Nat → Ix
  | createAccountWithSeed : Nat → Nat → Nat → Ix
  | initializeAccount : Nat → Nat → Nat → Ix
  | createATAIdempotent : Nat → Nat → Nat → Nat → Ix
  | raydiumSwap : Instruction → Ix
  | closeAccount : Nat → Nat → Nat → Ix
deriving DecidableEq

/-- Instruction assembly of createSwapTransaction, source lines 674-798,
with the results of the preceding network steps (pool state, quote
amounts, the two token programs, the seed-derived temporary accounts and
the associated token accounts) passed in as arguments.  `none` models a
throw: `BN.toNumber` on the trade amount when funding the temporary
wrapped-SOL input account, or an out-of-range amount in
buildSwapInstruction. -/
def createSwapTransaction (poolState : PoolState)
    (payer inputMint outputMint : Nat)
    (inputTokenProgram outputTokenProgram : Nat)
    (tempWsolIn tempWsolOut inputAta outputAta : Nat)
    (amountIn minimumAmountOut : Nat) : Option (List Ix) := do
  let computeIxs : List Ix :=
    [Ix.setComputeUnitLimit 300000, Ix.setComputeUnitPrice 50000]
  let inputPart ←
    if inputMint = NATIVE_MINT then
      (createTempWsolAccount tempWsolIn amountIn).map fun t =>
        (t.wsolAccount,
         [Ix.createAccountWithSeed payer t.wsolAccount t.lamports,
          Ix.initializeAccount t.wsolAccount NATIVE_MINT payer])
    else
      some (inputAta, ([] : List Ix))
  let outputPart ←
    if outputMint = NATIVE_MINT then
      (createTempWsolAccount tempWsolOut 0).map fun t =>
        (t.wsolAccount,
         [Ix.createAccountWithSeed payer t.wsolAccount t.lamports,
          Ix.initializeAccount t.wsolAccount NATIVE_MINT payer])
    else
      some (outputAta, [Ix.createATAIdempotent payer outputAta payer outputMint])
  let swapIx ← buildSwapInstruction poolState payer inputPart.1 outputPart.1
    inputMint outputMint inputTokenProgram outputTokenProgram amountIn minimumAmountOut
  let closeOutputIxs : List Ix :=
    if outputMint = NATIVE_MINT then [Ix.closeAccount tempWsolOut payer payer] else []
  let closeInputIxs : List Ix :=
    if inputMint = NATIVE_MINT then [Ix.closeAccount tempWsolIn payer payer] else []
  return computeIxs ++ inputPart.2 ++ outputPart.2 ++
    [Ix.raydiumSwap swapIx] ++ closeOutputIxs ++ closeInputIxs

structure AccountInfo where
  owner : Nat
  data : List Nat
deriving DecidableEq

/-- getPoolStateByAddress, source lines 192-223, with the result of the
single `connection.getAccountInfo(poolAddress)` read passed in.  The
source returns `null` both when the account is absent (line 204) and when
the owner is not the CPMM program (line 209); the two cases differ only
in the console log line, not in the returned value. -/
def getPoolStateByAddress (poolAddress : Nat) (accountInfo : Option AccountInfo) :
    Option PoolState :=
  match accountInfo with
  | none => none
  | some info =>
    if info.owner ≠ RAYDIUM_CPMM_PROGRAM_ID then none
    else some (parsePoolState poolAddress info.data)

/-- Whether an assembled instruction creates or initializes an ephemeral
wrapped-SOL account (the create-with-seed / initialize pair). -/
def Ix.isEphemeralCreate : Ix → Bool
  | .createAccountWithSeed _ _ _ => true
  | .initializeAccount _ _ _ => true
  | _ => false

/-- Whether an assembled instruction closes a token account. -/
def Ix.isClose : Ix → Bool
  | .closeAccount _ _ _ => true
  | _ => false

/-- A concrete pool state used by witnesses. -/
def testPool : PoolState :=
  { address := 99, ammConfig := 3, poolCreator := 0, token0Vault := 11, token1Vault := 12,
    lpMint := 5, token0Mint := 1, token1Mint := 2, token0Program := 21, token1Program := 22,
    observationKey := 4, authBump := some 255, status := some 0, lpMintDecimals := some 9,
    mint0Decimals := some 9, mint1Decimals := some 6, lpSupply := 0, protocolFeesToken0 := 0,
    protocolFeesToken1 := 0, fundFeesToken0 := 0, fundFeesToken1 := 0, openTime := 0 }

/-- A concrete 637-byte record used by the round-trip witness. -/
def sampleRecord : List Nat := (List.range 637).map (fun i => i % 256)

/-- The swap instruction built by the C5 witness scenario (SOL input,
token output): input vault resolves to the pool's second vault because
the wrapped-SOL mint is not this pool's token 0 mint. -/
def sampleSwapIx : Instruction :=
  { programId := RAYDIUM_CPMM_PROGRAM_ID
    keys :=
      [{ pubkey := 77, isSigner := true, isWritable := true },
       { pubkey := RAYDIUM_CPMM_AUTHORITY, isSigner := false, isWritable := false },
       { pubkey := 3, isSigner := false, isWritable := false },
       { pubkey := 99, isSigner := false, isWritable := true },
       { pubkey := 61, isSigner := false, isWritable := true },
       { pubkey := 52, isSigner := false, isWritable := true },
       { pubkey := 12, isSigner := false, isWritable := true },
       { pubkey := 11, isSigner := false, isWritable := true },
       { pubkey := 21, isSigner := false, isWritable := false },
       { pubkey := 22, isSigner := false, isWritable := false },
       { pubkey := NATIVE_MINT, isSigner := false, isWritable := false },
       { pubkey := 2, isSigner := false, isWritable := false },
       { pubkey := 4, isSigner := false, isWritable := true }]
    data := SWAP_BASE_INPUT_DISCRIMINATOR ++ leBytes 8 10000 ++ leBytes 8 9000 }

/-- The full instruction list of the C5 witness scenario. -/
def sampleSwapIxs : List Ix :=
  [Ix.setComputeUnitLimit 300000, Ix.setComputeUnitPrice 50000,
   Ix.createAccountWithSeed 77 61 (TOKEN_ACCOUNT_RENT + 10000),
   Ix.initializeAccount 61 NATIVE_MINT 77,
   Ix.createATAIdempotent 77 52 77 2,
   Ix.raydiumSwap sampleSwapIx,
   Ix.closeAccount 61 77 77]

/-! Supporting lemmas about the byte-level encodings. -/

theorem leBytes_length (w : Nat) : ∀ v : Nat, (leBytes w v).length = w := by
  induction w with
  | zero => intro v; rfl
  | succ w ih => intro v; simp [leBytes, ih]

theorem beBytes_length (w v : Nat) : (beBytes w v).length = w := by
  simp [beBytes, leBytes_length]

theorem leBytes_leVal : ∀ l : List Nat, (∀ b ∈ l, b < 256) →
    leBytes l.length (leVal l) = l := by
  intro l
  induction l with
  | nil => intro _; rfl
  | cons b bs ih =>
    intro h
    have hb : b < 256 := h b (List.mem_cons_self b bs)
    have ihbs := ih fun x hx => h x (List.mem_cons_of_mem _ hx)
    simp only [List.length_cons, leBytes, leVal]
    rw [Nat.add_mul_mod_self_left, Nat.mod_eq_of_lt hb,
      Nat.add_mul_div_left _ _ (by norm_num : 0 < 256),
      Nat.div_eq_of_lt hb, Nat.zero_add, ihbs]

theorem beBytes_beVal (l : List Nat) (h : ∀ b ∈ l, b < 256) :
    beBytes l.length (beVal l) = l := by
  have hrev : ∀ b ∈ l.reverse, b < 256 := fun b hb => h b (List.mem_reverse.mp hb)
  have := leBytes_leVal l.reverse hrev
  rw [List.length_reverse] at this
  simp [beBytes, beVal, this]

/-! Supporting lemmas about buffer slices. -/

theorem subarray_append (data : List Nat) {a b c : Nat} (hab : a ≤ b) (hbc : b ≤ c) :
    subarray data a b ++ subarray data b c = subarray data a c := by
  unfold subarray
  have hdrop : data.drop b = (data.drop a).drop (b - a) := by
    rw [List.drop_drop]
    congr 1
    omega
  have hsum : (b - a) + (c - b) = c - a := by omega
  rw [hdrop, ← List.take_add, hsum]

theorem subarray_length (data : List Nat) {a c : Nat} (hac : a ≤ c)
    (hc : c ≤ data.length) : (subarray data a c).length = c - a := by
  simp only [subarray, List.length_take, List.length_drop]
  omega

theorem mem_subarray {data : List Nat} {a c b : Nat} (h : b ∈ subarray data a c) :
    b ∈ data :=
  List.drop_subset a data (List.take_subset _ _ h)

theorem subarray_singleton (data : List Nat) (n : Nat) (h : n < data.length) :
    subarray data n (n + 1) = [data.get ⟨n, h⟩] := by
  simp only [subarray, Nat.add_sub_cancel_left, List.get_eq_getElem]
  exact List.take_one_drop_eq_of_lt_length h

theorem readKey_encode (data : List Nat) (off : Nat)
    (hoff : off + 32 ≤ data.length) (hb : ∀ b ∈ data, b < 256) :
    beBytes 32 (readKey data off) = subarray data off (off + 32) := by
  have hlen : (subarray data off (off + 32)).length = 32 := by
    rw [subarray_length data (Nat.le_add_right _ _) hoff]; omega
  have hmem : ∀ b ∈ subarray data off (off + 32), b < 256 :=
    fun b hbmem => hb b (mem_subarray hbmem)
  have := beBytes_beVal (subarray data off (off + 32)) hmem
  rw [hlen] at this
  simpa [readKey] using this

theorem readU64_encode (data : List Nat) (off : Nat)
    (hoff : off + 8 ≤ data.length) (hb : ∀ b ∈ data, b < 256) :
    leBytes 8 (readU64 data off) = subarray data off (off + 8) := by
  have hlen : (subarray data off (off + 8)).length = 8 := by
    rw [subarray_length data (Nat.le_add_right _ _) hoff]; omega
  have hmem : ∀ b ∈ subarray data off (off + 8), b < 256 :=
    fun b hbmem => hb b (mem_subarray hbmem)
  have := leBytes_leVal (subarray data off (off + 8)) hmem
  rw [hlen] at this
  simpa [readU64] using this

theorem getD_getElem_eq_singleton (data : List Nat) (n : Nat) (h : n < data.length) :
    [(data[n]?).getD 0] = subarray data n (n + 1) := by
  rw [subarray_singleton data n h, List.getElem?_eq_getElem h]
  simp [List.get_eq_getElem]

theorem encodePoolFields_length (ps : PoolState) :
    (encodePoolFields ps).length = 373 := by
  simp [encodePoolFields, byteField, beBytes_length, leBytes_length]

/-- Decoding a 637-byte record and re-encoding its fields at the layout
offsets reproduces exactly the byte region the decoder read: offsets 8
(after the discriminator) up to 381. -/
theorem encodePoolFields_parsePoolState (addr : Nat) (data : List Nat)
    (hlen : data.length = 637) (hb : ∀ b ∈ data, b < 256) :
    encodePoolFields (parsePoolState addr data) = subarray data 8 381 := by
  simp only [encodePoolFields, parsePoolState, byteField,
    POOL_STATE_LAYOUT.AMM_CONFIG, POOL_STATE_LAYOUT.POOL_CREATOR,
    POOL_STATE_LAYOUT.TOKEN_0_VAULT, POOL_STATE_LAYOUT.TOKEN_1_VAULT,
    POOL_STATE_LAYOUT.LP_MINT, POOL_STATE_LAYOUT.TOKEN_0_MINT,
    POOL_STATE_LAYOUT.TOKEN_1_MINT, POOL_STATE_LAYOUT.TOKEN_0_PROGRAM,
    POOL_STATE_LAYOUT.TOKEN_1_PROGRAM, POOL_STATE_LAYOUT.OBSERVATION_KEY,
    POOL_STATE_LAYOUT.AUTH_BUMP, POOL_STATE_LAYOUT.STATUS,
    POOL_STATE_LAYOUT.LP_MINT_DECIMALS, POOL_STATE_LAYOUT.MINT_0_DECIMALS,
    POOL_STATE_LAYOUT.MINT_1_DECIMALS, POOL_STATE_LAYOUT.LP_SUPPLY,
    POOL_STATE_LAYOUT.PROTOCOL_FEES_TOKEN_0, POOL_STATE_LAYOUT.PROTOCOL_FEES_TOKEN_1,
    POOL_STATE_LAYOUT.FUND_FEES_TOKEN_0, POOL_STATE_LAYOUT.FUND_FEES_TOKEN_1,
    POOL_STATE_LAYOUT.OPEN_TIME]
  rw [readKey_encode data 8 (by omega) hb, readKey_encode data 40 (by omega) hb,
    readKey_encode data 72 (by omega) hb, readKey_encode data 104 (by omega) hb,
    readKey_encode data 136 (by omega) hb, readKey_encode data 168 (by omega) hb,
    readKey_encode data 200 (by omega) hb, readKey_encode data 232 (by omega) hb,
    readKey_encode data 264 (by omega) hb, readKey_encode data 296 (by omega) hb,
    getD_getElem_eq_singleton data 328 (by omega), getD_getElem_eq_singleton data 329 (by omega),
    getD_getElem_eq_singleton data 330 (by omega), getD_getElem_eq_singleton data 331 (by omega),
    getD_getElem_eq_singleton data 332 (by omega),
    readU64_encode data 333 (by omega) hb, readU64_encode data 341 (by omega) hb,
    readU64_encode data 349 (by omega) hb, readU64_encode data 357 (by omega) hb,
    readU64_encode data 365 (by omega) hb, readU64_encode data 373 (by omega) hb]
  norm_num
  rw [subarray_append data (by norm_num : (365:Nat) ≤ 373) (by norm_num : (373:Nat) ≤ 381),
    subarray_append data (by norm_num : (357:Nat) ≤ 365) (by norm_num : (365:Nat) ≤ 381),
    subarray_append data (by norm_num : (349:Nat) ≤ 357) (by norm_num : (357:Nat) ≤ 381),
    subarray_append data (by norm_num : (341:Nat) ≤ 349) (by norm_num : (349:Nat) ≤ 381),
    subarray_append data (by norm_num : (333:Nat) ≤ 341) (by norm_num : (341:Nat) ≤ 381),
    subarray_append data (by norm_num : (332:Nat) ≤ 333) (by norm_num : (333:Nat) ≤ 381),
    subarray_append data (by norm_num : (331:Nat) ≤ 332) (by norm_num : (332:Nat) ≤ 381),
    subarray_append data (by norm_num : (330:Nat) ≤ 331) (by norm_num : (331:Nat) ≤ 381),
    subarray_append data (by norm_num : (329:Nat) ≤ 330) (by norm_num : (330:Nat) ≤ 381),
    subarray_append data (by norm_num : (328:Nat) ≤ 329) (by norm_num : (329:Nat) ≤ 381),
    subarray_append data (by norm_num : (296:Nat) ≤ 328) (by norm_num : (328:Nat) ≤ 381),
    subarray_append data (by norm_num : (264:Nat) ≤ 296) (by norm_num : (296:Nat) ≤ 381),
    subarray_append data (by norm_num : (232:Nat) ≤ 264) (by norm_num : (264:Nat) ≤ 381),
    subarray_append data (by norm_num : (200:Nat) ≤ 232) (by norm_num : (232:Nat) ≤ 381),
    subarray_append data (by norm_num : (168:Nat) ≤ 200) (by norm_num : (200:Nat) ≤ 381),
    subarray_append data (by norm_num : (136:Nat) ≤ 168) (by norm_num : (168:Nat) ≤ 381),
    subarray_append data (by norm_num : (104:Nat) ≤ 136) (by norm_num : (136:Nat) ≤ 381),
    subarray_append data (by norm_num : (72:Nat) ≤ 104) (by norm_num : (104:Nat) ≤ 381),
    subarray_append data (by norm_num : (40:Nat) ≤ 72) (by norm_num : (72:Nat) ≤ 381),
    subarray_append data (by norm_num : (8:Nat) ≤ 40) (by norm_num : (40:Nat) ≤ 381)]

theorem leVal_leBytes (w : Nat) : ∀ v : Nat, v < 256 ^ w →
    leVal (leBytes w v) = v := by
  induction w with
  | zero =>
    intro v hv
    have hv0 : v = 0 := by simpa using hv
    subst hv0
    rfl
  | succ w ih =>
    intro v hv
    have hdiv : v / 256 < 256 ^ w := by
      rw [Nat.div_lt_iff_lt_mul (by norm_num : 0 < 256)]
      calc v < 256 ^ (w + 1) := hv
      _ = 256 ^ w * 256 := by rw [pow_succ]
    simp only [leBytes, leVal, ih (v / 256) hdiv]
    exact Nat.mod_add_div v 256

/-- The minimum-amount-out produced by the quote pipeline is precisely
`amountOut * (10000 − max(requested, floor)) / 10000` with the
low-liquidity floor (shared helper for the slippage claims). -/
theorem quoteCore_minimum_formula
    (amountIn inputReserve outputReserve feeBps slippageBps out minOut : Nat)
    (h : quoteCore amountIn inputReserve outputReserve feeBps slippageBps =
      some (out, minOut)) :
    minOut = out * (10000 -
      max slippageBps (if inputReserve < 100000000 then 1500 else 500)) / 10000 ∧
    calculateSwapOutput amountIn inputReserve outputReserve feeBps = some out := by
  unfold quoteCore at h
  cases hc : calculateSwapOutput amountIn inputReserve outputReserve feeBps with
  | none => rw [hc] at h; simp at h
  | some a =>
    rw [hc] at h
    simp only [Option.map_some', Option.some.injEq, Prod.mk.injEq] at h
    obtain ⟨h1, h2⟩ := h
    subst h1
    subst h2
    exact ⟨rfl, rfl⟩

/-- C6: the claim states that decoding rawBytes shorter than the fixed
layout fails with a MalformedAccount error.  The source performs no
length check at all: subarray reads clamp and out-of-range single-byte
reads are `undefined`, so a `PoolState` is returned.  This closed
computation exhibits a 5-byte buffer decoding to a PoolState (with
zeroed key fields and absent byte fields) instead of failing. -/
theorem parsePoolState_short_input_cex :
    parsePoolState 7 (List.replicate 5 171) =
      { address := 7, ammConfig := 0, poolCreator := 0, token0Vault := 0, token1Vault := 0,
        lpMint := 0, token0Mint := 0, token1Mint := 0, token0Program := 0, token1Program := 0,
        observationKey := 0, authBump := none, status := none, lpMintDecimals := none,
        mint0Decimals := none, mint1Decimals := none, lpSupply := 0, protocolFeesToken0 := 0,
        protocolFeesToken1 := 0, fundFeesToken0 := 0, fundFeesToken1 := 0, openTime := 0 } := by
  decide

/-- C6 (amended): for every address and every buffer shorter than the
637-byte layout, the decode operation does not fail: it returns a
`PoolState` carrying the given address, and when the buffer ends before
the status byte at offset 329 the status field is simply absent
(JavaScript `undefined`) rather than an error being raised. -/
theorem parsePoolState_short_input (addr : Nat) (data : List Nat)
    (hshort : data.length < 637) :
    (parsePoolState addr data).address = addr ∧
    (data.length ≤ 329 → (parsePoolState addr data).status = none) := by
  refine ⟨rfl, fun h => ?_⟩
  simp only [parsePoolState, POOL_STATE_LAYOUT.STATUS]
  exact List.getElem?_eq_none (by omega)

theorem parsePoolState_short_input_witness :
    (List.replicate 5 (171 : Nat)).length < 637 ∧
    ((parsePoolState 7 (List.replicate 5 171)).address = 7 ∧
      ((List.replicate 5 (171 : Nat)).length ≤ 329 →
        (parsePoolState 7 (List.replicate 5 171)).status = none)) :=
  ⟨by decide, parsePoolState_short_input 7 (List.replicate 5 171) (by decide)⟩

/-- C7 counterexample: a valid 637-byte record whose first byte (part of
the 8-byte account discriminator, which the decoder never reads) is 1
decodes and re-encodes to a different byte string, so the claimed exact
whole-record round-trip fails. -/
theorem poolState_roundtrip_cex :
    ((1 :: List.replicate 636 0 : List Nat).length = 637) ∧
    (∀ b ∈ (1 :: List.replicate 636 0 : List Nat), b < 256) ∧
    encodePoolState (parsePoolState 0 (1 :: List.replicate 636 0)) ≠
      1 :: List.replicate 636 0 := by
  decide

/-- C7 (amended): for every valid 637-byte pool record, decode followed
by re-encoding the decoded fields at the same fixed offsets reproduces
exactly the field region of the record — bytes 8 through 380.  The 8
leading discriminator bytes and the 256 trailing bytes are not part of
any decoded field and are not recovered. -/
theorem poolState_roundtrip_field_region (addr : Nat) (data : List Nat)
    (hlen : data.length = 637) (hb : ∀ b ∈ data, b < 256) :
    subarray (encodePoolState (parsePoolState addr data)) 8 381 = subarray data 8 381 := by
  rw [← encodePoolFields_parsePoolState addr data hlen hb]
  have hflen := encodePoolFields_length (parsePoolState addr data)
  unfold encodePoolState subarray
  rw [show (381 : Nat) - 8 = 373 by norm_num]
  have hdrop : (List.replicate 8 0 ++
      (encodePoolFields (parsePoolState addr data) ++ List.replicate 256 0)).drop 8 =
      encodePoolFields (parsePoolState addr data) ++ List.replicate 256 0 := by
    rw [List.drop_append_of_le_length (by simp)]
    simp
  rw [List.append_assoc, hdrop, List.take_append_of_le_length (by omega),
    List.take_of_length_le (by omega)]

theorem poolState_roundtrip_field_region_witness :
    sampleRecord.length = 637 ∧ (∀ b ∈ sampleRecord, b < 256) ∧
    subarray (encodePoolState (parsePoolState 0 sampleRecord)) 8 381 =
      subarray sampleRecord 8 381 :=
  ⟨by decide, by decide, poolState_roundtrip_field_region 0 sampleRecord (by decide) (by decide)⟩

/-- C8 counterexample: the claim states that a missing account and an
account owned by the wrong program fail with distinct errors
(`NotFound` vs `OwnershipMismatch`).  The source returns the same `null`
in both cases (the two branches differ only in a console log line), so
the caller observes identical results for the two failures. -/
theorem getPoolStateByAddress_cex :
    getPoolStateByAddress 42 none = none ∧
    getPoolStateByAddress 42 (some { owner := 7, data := List.replicate 637 0 }) = none ∧
    getPoolStateByAddress 42 none =
      getPoolStateByAddress 42 (some { owner := 7, data := List.replicate 637 0 }) := by
  refine ⟨rfl, ?_, ?_⟩ <;> decide

/-- C8 (amended): the direct lookup performs one account read and
returns the undistinguished failure value `none` both when no account
exists and when the account's owner is not the CPMM swap program; it
returns a decoded `PoolState` exactly when the account exists and is
owned by the swap program. -/
theorem getPoolStateByAddress_result_spec (addr : Nat) (info : Option AccountInfo)
    (ps : PoolState) :
    getPoolStateByAddress addr none = none ∧
    (∀ i : AccountInfo, i.owner ≠ RAYDIUM_CPMM_PROGRAM_ID →
      getPoolStateByAddress addr (some i) = none) ∧
    (getPoolStateByAddress addr info = some ps ↔
      ∃ i, info = some i ∧ i.owner = RAYDIUM_CPMM_PROGRAM_ID ∧
        ps = parsePoolState addr i.data) := by
  refine ⟨rfl, fun i hi => by simp [getPoolStateByAddress, hi], ?_⟩
  cases info with
  | none => simp [getPoolStateByAddress]
  | some i =>
    by_cases hown : i.owner = RAYDIUM_CPMM_PROGRAM_ID
    · simp [getPoolStateByAddress, hown, eq_comm]
    · simp [getPoolStateByAddress, hown]

theorem getPoolStateByAddress_result_spec_witness :
    getPoolStateByAddress 42 none = none ∧
    (∀ i : AccountInfo, i.owner ≠ RAYDIUM_CPMM_PROGRAM_ID →
      getPoolStateByAddress 42 (some i) = none) ∧
    (getPoolStateByAddress 42
        (some { owner := RAYDIUM_CPMM_PROGRAM_ID, data := [] }) =
        some (parsePoolState 42 []) ↔
      ∃ i, (some { owner := RAYDIUM_CPMM_PROGRAM_ID, data := [] } :
          Option AccountInfo) = some i ∧
        i.owner = RAYDIUM_CPMM_PROGRAM_ID ∧ parsePoolState 42 [] = parsePoolState 42 i.data) :=
  getPoolStateByAddress_result_spec 42
    (some { owner := RAYDIUM_CPMM_PROGRAM_ID, data := [] }) (parsePoolState 42 [])

/-- C2 counterexample: at the claimed reference inputs
(amountIn 10,000, reserves 1,000,000 / 2,000,000, fee 100 bps, requested
slippage 100 bps and input mint = the pool's token 0 mint) the quote does
not produce amountOut 19,604 nor minimumAmountOut 19,407: the true floor
of 9,900·2,000,000/1,009,900 is 19,605, and the input reserve is below
the 100,000,000 low-liquidity threshold, so 1500 bps of slippage apply. -/
theorem getSwapQuote_reference_example_cex :
    (getSwapQuote testPool ⟨1000000, 2000000⟩ 1 2 10000 100).map SwapQuote.amountOut ≠
      some 19604 ∧
    (getSwapQuote testPool ⟨1000000, 2000000⟩ 1 2 10000 100).map SwapQuote.minimumAmountOut ≠
      some 19407 := by
  decide

/-- C2 (amended): at the reference inputs the quote computation yields
effectiveIn 9,900 and amountOut 19,605 = floor(9,900·2,000,000/1,009,900);
because the input reserve 1,000,000 is under the 100,000,000
low-liquidity threshold the effective slippage is max(100, 1500) = 1500
bps, so minimumAmountOut = floor(19,605·8,500/10,000) = 16,664. -/
theorem getSwapQuote_reference_example :
    amountInAfterFee 10000 100 = 9900 ∧
    calculateSwapOutput 10000 1000000 2000000 100 =
      some (9900 * 2000000 / (1000000 + 9900)) ∧
    9900 * 2000000 / (1000000 + 9900) = 19605 ∧
    effectiveSlippageBps 100 1000000 = 1500 ∧
    getSwapQuote testPool ⟨1000000, 2000000⟩ 1 2 10000 100 =
      some { amountIn := 10000, amountOut := 19605,
             minimumAmountOut := 19605 * (10000 - 1500) / 10000,
             inputMint := 1, outputMint := 2 } ∧
    19605 * (10000 - 1500) / 10000 = 16664 := by
  decide

/-- C3: for every quote that is produced, the minimum-amount-out is
derived from the effective slippage max(requested, floor) where the
floor is 1500 bps when the input-side reserve is under 100,000,000
atomic units and 500 bps otherwise; in particular a low-liquidity
input reserve forces at least 1500 bps regardless of a smaller request. -/
theorem getSwapQuote_effective_slippage (poolState : PoolState) (vaults : VaultBalances)
    (inputMint outputMint amountIn slippageBps : Nat) (q : SwapQuote)
    (h : getSwapQuote poolState vaults inputMint outputMint amountIn slippageBps = some q) :
    q.minimumAmountOut = q.amountOut * (10000 - effectiveSlippageBps slippageBps
      (if inputMint = poolState.token0Mint then vaults.vault0Balance
       else vaults.vault1Balance)) / 10000 ∧
    effectiveSlippageBps slippageBps
      (if inputMint = poolState.token0Mint then vaults.vault0Balance
       else vaults.vault1Balance) =
      max slippageBps
        (if (if inputMint = poolState.token0Mint then vaults.vault0Balance
          else vaults.vault1Balance) < 100000000 then 1500 else 500) ∧
    ((if inputMint = poolState.token0Mint then vaults.vault0Balance
      else vaults.vault1Balance) < 100000000 →
      1500 ≤ effectiveSlippageBps slippageBps
        (if inputMint = poolState.token0Mint then vaults.vault0Balance
         else vaults.vault1Balance)) := by
  simp only [getSwapQuote, Option.map_eq_some'] at h
  obtain ⟨p, hp, hq⟩ := h
  subst hq
  obtain ⟨hmin, -⟩ := quoteCore_minimum_formula _ _ _ _ _ _ _ hp
  refine ⟨?_, rfl, fun hlow => ?_⟩
  · simpa [effectiveSlippageBps, conservativeSlippage] using hmin
  · simp only [effectiveSlippageBps, conservativeSlippage, hlow, if_pos]
    omega

theorem getSwapQuote_effective_slippage_witness :
    getSwapQuote testPool ⟨1000000, 2000000⟩ 1 2 10000 100 =
      some { amountIn := 10000, amountOut := 19605, minimumAmountOut := 16664,
             inputMint := 1, outputMint := 2 } ∧
    ((16664 : Nat) = 19605 * (10000 - effectiveSlippageBps 100
      (if (1 : Nat) = testPool.token0Mint then (1000000 : Nat) else 2000000)) / 10000 ∧
     effectiveSlippageBps 100
       (if (1 : Nat) = testPool.token0Mint then (1000000 : Nat) else 2000000) =
       max 100 (if (if (1 : Nat) = testPool.token0Mint then (1000000 : Nat) else 2000000) <
         100000000 then 1500 else 500) ∧
     ((if (1 : Nat) = testPool.token0Mint then (1000000 : Nat) else 2000000) < 100000000 →
       1500 ≤ effectiveSlippageBps 100
         (if (1 : Nat) = testPool.token0Mint then (1000000 : Nat) else 2000000))) :=
  ⟨by decide,
   getSwapQuote_effective_slippage testPool ⟨1000000, 2000000⟩ 1 2 10000 100
     { amountIn := 10000, amountOut := 19605, minimumAmountOut := 16664,
       inputMint := 1, outputMint := 2 } (by decide)⟩

/-- C4: for every amount, every pair of reserves, and fee and requested
slippage in [0, 10000), any quote the pipeline produces satisfies
minimumAmountOut ≤ amountOut. -/
theorem quoteCore_minimumAmountOut_le
    (amountIn inputReserve outputReserve feeBps slippageBps out minOut : Nat)
    (hfee : feeBps < 10000) (hslip : slippageBps < 10000)
    (h : quoteCore amountIn inputReserve outputReserve feeBps slippageBps =
      some (out, minOut)) :
    minOut ≤ out := by
  obtain ⟨hmin, -⟩ := quoteCore_minimum_formula _ _ _ _ _ _ _ h
  rw [hmin]
  calc out * (10000 - max slippageBps
        (if inputReserve < 100000000 then 1500 else 500)) / 10000
      ≤ out * 10000 / 10000 :=
        Nat.div_le_div_right (Nat.mul_le_mul le_rfl (by omega))
    _ = out := by omega

theorem quoteCore_minimumAmountOut_le_witness :
    (100 : Nat) < 10000 ∧
    quoteCore 10000 1000000 2000000 100 100 = some (19605, 16664) ∧
    (16664 : Nat) ≤ 19605 :=
  ⟨by decide, by decide,
   quoteCore_minimumAmountOut_le 10000 1000000 2000000 100 100 19605 16664
     (by decide) (by decide) (by decide)⟩

/-- C1: for every pool state, payer, token accounts, mints, token
programs and in-range amounts, the swap instruction has the 24-byte
payload discriminator ++ amountIn (8-byte LE) ++ minimumAmountOut
(8-byte LE), and exactly the 13 accounts in the fixed order, with the
input-side vault being the pool's first vault exactly when the input
mint equals the pool's first mint. -/
theorem buildSwapInstruction_payload_and_accounts (poolState : PoolState)
    (payer inAcct outAcct inputMint outputMint inProg outProg amountIn minOut : Nat)
    (ha : amountIn < 2 ^ 64) (hm : minOut < 2 ^ 64) :
    ∃ ix, buildSwapInstruction poolState payer inAcct outAcct inputMint outputMint
        inProg outProg amountIn minOut = some ix ∧
      ix.data = SWAP_BASE_INPUT_DISCRIMINATOR ++ leBytes 8 amountIn ++ leBytes 8 minOut ∧
      ix.data.length = 24 ∧
      leVal (leBytes 8 amountIn) = amountIn ∧
      leVal (leBytes 8 minOut) = minOut ∧
      ix.keys.length = 13 ∧
      ix.keys =
        [{ pubkey := payer, isSigner := true, isWritable := true },
         { pubkey := RAYDIUM_CPMM_AUTHORITY, isSigner := false, isWritable := false },
         { pubkey := poolState.ammConfig, isSigner := false, isWritable := false },
         { pubkey := poolState.address, isSigner := false, isWritable := true },
         { pubkey := inAcct, isSigner := false, isWritable := true },
         { pubkey := outAcct, isSigner := false, isWritable := true },
         { pubkey := (if inputMint = poolState.token0Mint then poolState.token0Vault
            else poolState.token1Vault), isSigner := false, isWritable := true },
         { pubkey := (if inputMint = poolState.token0Mint then poolState.token1Vault
            else poolState.token0Vault), isSigner := false, isWritable := true },
         { pubkey := inProg, isSigner := false, isWritable := false },
         { pubkey := outProg, isSigner := false, isWritable := false },
         { pubkey := inputMint, isSigner := false, isWritable := false },
         { pubkey := outputMint, isSigner := false, isWritable := false },
         { pubkey := poolState.observationKey, isSigner := false, isWritable := true }] := by
  have h256 : (256 : Nat) ^ 8 = 2 ^ 64 := by norm_num
  simp only [buildSwapInstruction, ha, hm, and_self, if_true]
  refine ⟨_, rfl, rfl, ?_, ?_, ?_, rfl, rfl⟩
  · simp [SWAP_BASE_INPUT_DISCRIMINATOR, leBytes_length]
  · exact leVal_leBytes 8 amountIn (by rw [h256]; exact ha)
  · exact leVal_leBytes 8 minOut (by rw [h256]; exact hm)

theorem buildSwapInstruction_payload_and_accounts_witness :
    (5 : Nat) < 2 ^ 64 ∧ (3 : Nat) < 2 ^ 64 ∧
    (∃ ix, buildSwapInstruction testPool 77 41 42 1 2 21 22 5 3 = some ix ∧
      ix.data = SWAP_BASE_INPUT_DISCRIMINATOR ++ leBytes 8 5 ++ leBytes 8 3 ∧
      ix.data.length = 24 ∧
      leVal (leBytes 8 5) = 5 ∧
      leVal (leBytes 8 3) = 3 ∧
      ix.keys.length = 13 ∧
      ix.keys =
        [{ pubkey := 77, isSigner := true, isWritable := true },
         { pubkey := RAYDIUM_CPMM_AUTHORITY, isSigner := false, isWritable := false },
         { pubkey := testPool.ammConfig, isSigner := false, isWritable := false },
         { pubkey := testPool.address, isSigner := false, isWritable := true },
         { pubkey := 41, isSigner := false, isWritable := true },
         { pubkey := 42, isSigner := false, isWritable := true },
         { pubkey := (if (1 : Nat) = testPool.token0Mint then testPool.token0Vault
            else testPool.token1Vault), isSigner := false, isWritable := true },
         { pubkey := (if (1 : Nat) = testPool.token0Mint then testPool.token1Vault
            else testPool.token0Vault), isSigner := false, isWritable := true },
         { pubkey := 21, isSigner := false, isWritable := false },
         { pubkey := 22, isSigner := false, isWritable := false },
         { pubkey := 1, isSigner := false, isWritable := false },
         { pubkey := 2, isSigner := false, isWritable := false },
         { pubkey := testPool.observationKey, isSigner := false, isWritable := true }]) :=
  ⟨by norm_num, by norm_num,
   buildSwapInstruction_payload_and_accounts testPool 77 41 42 1 2 21 22 5 3
     (by norm_num) (by norm_num)⟩

/-- C9: neither the quote nor the instruction builder validates that the
input mint belongs to the pool.  Any input mint different from the
pool's token 0 mint — including one matching neither pool mint — is
resolved as a token1→token0 swap: the quote reads vault 1 as the input
reserve, succeeds whenever that balance is non-zero, and the
instruction is built without error with vault 1 in the input-vault slot
and vault 0 in the output-vault slot. -/
theorem getSwapQuote_no_mint_validation (poolState : PoolState) (vaults : VaultBalances)
    (payer inAcct outAcct inProg outProg inputMint outputMint amountIn minOut
     slippageBps : Nat)
    (hne : inputMint ≠ poolState.token0Mint) :
    getSwapQuote poolState vaults inputMint outputMint amountIn slippageBps =
      (quoteCore amountIn vaults.vault1Balance vaults.vault0Balance 100 slippageBps).map
        (fun p => { amountIn := amountIn, amountOut := p.1, minimumAmountOut := p.2,
                    inputMint := inputMint, outputMint := outputMint }) ∧
    (vaults.vault1Balance ≠ 0 →
      (getSwapQuote poolState vaults inputMint outputMint amountIn slippageBps).isSome =
        true) ∧
    (amountIn < 2 ^ 64 → minOut < 2 ^ 64 →
      ∃ ix, buildSwapInstruction poolState payer inAcct outAcct inputMint outputMint
          inProg outProg amountIn minOut = some ix ∧
        ix.keys[6]? =
          some { pubkey := poolState.token1Vault, isSigner := false, isWritable := true } ∧
        ix.keys[7]? =
          some { pubkey := poolState.token0Vault, isSigner := false, isWritable := true }) := by
  refine ⟨by simp [getSwapQuote, hne], fun hv => ?_, fun ha hm => ?_⟩
  · simp [getSwapQuote, quoteCore, calculateSwapOutput, hne, hv]
  · simp only [buildSwapInstruction, hne, if_false, ha, hm, and_self, if_true]
    exact ⟨_, rfl, rfl, rfl⟩

theorem getSwapQuote_no_mint_validation_witness :
    (9 : Nat) ≠ testPool.token0Mint ∧
    (getSwapQuote testPool ⟨500, 700⟩ 9 2 100 100 =
      (quoteCore 100 700 500 100 100).map
        (fun p => { amountIn := 100, amountOut := p.1, minimumAmountOut := p.2,
                    inputMint := 9, outputMint := 2 }) ∧
     ((700 : Nat) ≠ 0 → (getSwapQuote testPool ⟨500, 700⟩ 9 2 100 100).isSome = true) ∧
     ((100 : Nat) < 2 ^ 64 → (42 : Nat) < 2 ^ 64 →
       ∃ ix, buildSwapInstruction testPool 77 41 43 9 2 21 22 100 42 = some ix ∧
         ix.keys[6]? =
           some { pubkey := testPool.token1Vault, isSigner := false, isWritable := true } ∧
         ix.keys[7]? =
           some { pubkey := testPool.token0Vault, isSigner := false, isWritable := true })) :=
  ⟨by decide,
   getSwapQuote_no_mint_validation testPool ⟨500, 700⟩ 77 41 43 21 22 9 2 100 42 100
     (by decide)⟩

/-- C10: funding the temporary wrapped-SOL input account converts the
u64 trade amount to a JavaScript number (`amountLamports.toNumber()`),
which throws for any amount of 2^53 or more, so for such amounts the
swap-transaction builder with native input throws and produces no
transaction, although the same amount is still in range for the 64-bit
instruction encoding. -/
theorem createSwapTransaction_unsafe_toNumber (poolState : PoolState)
    (payer outputMint inProg outProg tempIn tempOut inAta outAta amountIn minOut : Nat)
    (hbig : 2 ^ 53 ≤ amountIn) (ha : amountIn < 2 ^ 64) (hm : minOut < 2 ^ 64) :
    createTempWsolAccount tempIn amountIn = none ∧
    createSwapTransaction poolState payer NATIVE_MINT outputMint inProg outProg
      tempIn tempOut inAta outAta amountIn minOut = none ∧
    (buildSwapInstruction poolState payer inAta outAta NATIVE_MINT outputMint
      inProg outProg amountIn minOut).isSome = true := by
  have ha' : amountIn < 18446744073709551616 := by omega
  have hm' : minOut < 18446744073709551616 := by omega
  have hnlt : ¬ amountIn < 9007199254740992 := by omega
  refine ⟨?_, ?_, ?_⟩
  · simp [createTempWsolAccount, bnToNumber, hnlt]
  · simp [createSwapTransaction, createTempWsolAccount, bnToNumber, hnlt]
  · simp [buildSwapInstruction, ha', hm']

theorem createSwapTransaction_unsafe_toNumber_witness :
    2 ^ 53 ≤ (9007199254740992 : Nat) ∧ (9007199254740992 : Nat) < 2 ^ 64 ∧
    (createTempWsolAccount 61 9007199254740992 = none ∧
     createSwapTransaction testPool 77 NATIVE_MINT 2 21 22 61 62 51 52
       9007199254740992 0 = none ∧
     (buildSwapInstruction testPool 77 51 52 NATIVE_MINT 2 21 22
       9007199254740992 0).isSome = true) :=
  ⟨by norm_num, by norm_num,
   createSwapTransaction_unsafe_toNumber testPool 77 2 21 22 61 62 51 52
     9007199254740992 0 (by norm_num) (by norm_num) (by norm_num)⟩

/-- C5: every successfully assembled swap transaction lists its
instructions in the fixed order: compute-budget limit, compute-budget
price, create+init of a temporary wrapped-SOL input account exactly
when the input is the native mint, then either create+init of a
temporary wrapped-SOL output account (native output) or an idempotent
associated-token-account create (non-native output), the swap
instruction, the close of the temporary output account if created, and
the close of the temporary input account if created.  Consequently each
native side contributes exactly one create/init pair before the swap
and one close after it, and a swap with neither side native has zero
ephemeral-account instructions. -/
theorem createSwapTransaction_instruction_order (poolState : PoolState)
    (payer inputMint outputMint inProg outProg tempIn tempOut inAta outAta
     amountIn minOut : Nat) (ixs : List Ix)
    (h : createSwapTransaction poolState payer inputMint outputMint inProg outProg
      tempIn tempOut inAta outAta amountIn minOut = some ixs) :
    ∃ six, buildSwapInstruction poolState payer
        (if inputMint = NATIVE_MINT then tempIn else inAta)
        (if outputMint = NATIVE_MINT then tempOut else outAta)
        inputMint outputMint inProg outProg amountIn minOut = some six ∧
      ixs =
        [Ix.setComputeUnitLimit 300000, Ix.setComputeUnitPrice 50000] ++
        (if inputMint = NATIVE_MINT then
          [Ix.createAccountWithSeed payer tempIn (TOKEN_ACCOUNT_RENT + amountIn),
           Ix.initializeAccount tempIn NATIVE_MINT payer]
         else []) ++
        (if outputMint = NATIVE_MINT then
          [Ix.createAccountWithSeed payer tempOut TOKEN_ACCOUNT_RENT,
           Ix.initializeAccount tempOut NATIVE_MINT payer]
         else [Ix.createATAIdempotent payer outAta payer outputMint]) ++
        [Ix.raydiumSwap six] ++
        (if outputMint = NATIVE_MINT then [Ix.closeAccount tempOut payer payer] else []) ++
        (if inputMint = NATIVE_MINT then [Ix.closeAccount tempIn payer payer] else []) ∧
      ixs.countP Ix.isEphemeralCreate =
        ((if inputMint = NATIVE_MINT then 2 else 0) +
         (if outputMint = NATIVE_MINT then 2 else 0)) ∧
      ixs.countP Ix.isClose =
        ((if inputMint = NATIVE_MINT then 1 else 0) +
         (if outputMint = NATIVE_MINT then 1 else 0)) := by
  by_cases hin : inputMint = NATIVE_MINT <;> by_cases hout : outputMint = NATIVE_MINT
  · by_cases hamt : amountIn < 2 ^ 53
    · simp only [createSwapTransaction, hin, hout, createTempWsolAccount, bnToNumber,
        hamt, eq_self_iff_true, if_true, Option.map_some', Option.some_bind,
        Option.bind_eq_bind, Option.pure_def,
        (by norm_num : (0 : Nat) < 2 ^ 53)] at h
      rw [Option.bind_eq_some] at h
      obtain ⟨six, hsix, hL⟩ := h
      replace hL := Option.some.inj hL
      subst hL
      refine ⟨six, by simpa [hin, hout] using hsix, by simp [hin, hout], ?_, ?_⟩ <;>
        simp [hin, hout, List.countP_cons, List.countP_nil,
          Ix.isEphemeralCreate, Ix.isClose]
    · simp only [createSwapTransaction, hin, hout, createTempWsolAccount, bnToNumber,
        hamt, eq_self_iff_true, if_true, if_false, Option.map_none',
        Option.none_bind, Option.bind_eq_bind] at h
      exact Option.noConfusion h
  · by_cases hamt : amountIn < 2 ^ 53
    · simp only [createSwapTransaction, hin, hout, createTempWsolAccount, bnToNumber,
        hamt, eq_self_iff_true, if_true, if_false, Option.map_some', Option.some_bind,
        Option.bind_eq_bind, Option.pure_def] at h
      rw [Option.bind_eq_some] at h
      obtain ⟨six, hsix, hL⟩ := h
      replace hL := Option.some.inj hL
      subst hL
      refine ⟨six, by simpa [hin, hout] using hsix, by simp [hin, hout], ?_, ?_⟩ <;>
        simp [hin, hout, List.countP_cons, List.countP_nil,
          Ix.isEphemeralCreate, Ix.isClose]
    · simp only [createSwapTransaction, hin, hout, createTempWsolAccount, bnToNumber,
        hamt, eq_self_iff_true, if_true, if_false, Option.map_none',
        Option.none_bind, Option.bind_eq_bind] at h
      exact Option.noConfusion h
  · simp only [createSwapTransaction, hin, hout, createTempWsolAccount, bnToNumber,
      eq_self_iff_true, if_true, if_false, Option.map_some', Option.some_bind,
      Option.bind_eq_bind, Option.pure_def,
      (by norm_num : (0 : Nat) < 2 ^ 53)] at h
    rw [Option.bind_eq_some] at h
    obtain ⟨six, hsix, hL⟩ := h
    replace hL := Option.some.inj hL
    subst hL
    refine ⟨six, by simpa [hin, hout] using hsix, by simp [hin, hout], ?_, ?_⟩ <;>
      simp [hin, hout, List.countP_cons, List.countP_nil,
        Ix.isEphemeralCreate, Ix.isClose]
  · simp only [createSwapTransaction, hin, hout, createTempWsolAccount, bnToNumber,
      eq_self_iff_true, if_true, if_false, Option.map_some', Option.some_bind,
      Option.bind_eq_bind, Option.pure_def] at h
    rw [Option.bind_eq_some] at h
    obtain ⟨six, hsix, hL⟩ := h
    replace hL := Option.some.inj hL
    subst hL
    refine ⟨six, by simpa [hin, hout] using hsix, by simp [hin, hout], ?_, ?_⟩ <;>
      simp [hin, hout, List.countP_cons, List.countP_nil,
        Ix.isEphemeralCreate, Ix.isClose]

theorem createSwapTransaction_instruction_order_witness :
    createSwapTransaction testPool 77 NATIVE_MINT 2 21 22 61 62 51 52 10000 9000 =
      some sampleSwapIxs ∧
    (∃ six, buildSwapInstruction testPool 77
        (if NATIVE_MINT = NATIVE_MINT then 61 else 51)
        (if (2 : Nat) = NATIVE_MINT then 62 else 52)
        NATIVE_MINT 2 21 22 10000 9000 = some six ∧
      sampleSwapIxs =
        [Ix.setComputeUnitLimit 300000, Ix.setComputeUnitPrice 50000] ++
        (if NATIVE_MINT = NATIVE_MINT then
          [Ix.createAccountWithSeed 77 61 (TOKEN_ACCOUNT_RENT + 10000),
           Ix.initializeAccount 61 NATIVE_MINT 77]
         else []) ++
        (if (2 : Nat) = NATIVE_MINT then
          [Ix.createAccountWithSeed 77 62 TOKEN_ACCOUNT_RENT,
           Ix.initializeAccount 62 NATIVE_MINT 77]
         else [Ix.createATAIdempotent 77 52 77 2]) ++
        [Ix.raydiumSwap six] ++
        (if (2 : Nat) = NATIVE_MINT then [Ix.closeAccount 62 77 77] else []) ++
        (if NATIVE_MINT = NATIVE_MINT then [Ix.closeAccount 61 77 77] else []) ∧
      sampleSwapIxs.countP Ix.isEphemeralCreate =
        ((if NATIVE_MINT = NATIVE_MINT then 2 else 0) +
         (if (2 : Nat) = NATIVE_MINT then 2 else 0)) ∧
      sampleSwapIxs.countP Ix.isClose =
        ((if NATIVE_MINT = NATIVE_MINT then 1 else 0) +
         (if (2 : Nat) = NATIVE_MINT then 1 else 0))) :=
  ⟨by decide,
   createSwapTransaction_instruction_order testPool 77 NATIVE_MINT 2 21 22 61 62 51 52
     10000 9000 sampleSwapIxs (by decide)⟩

end RaydiumCpmm
